import Mathlib

/-!
Verification of the Case Lifecycle Engine of the MVOI-RATEL Situation Room
backend: a shallow embedding of the Mongoose/Express controllers that govern
a case from submission to closure (complaint.controller.js,
admin.controller.js, invitation.controller.js, public.controller.js) plus the
atomic reference generator (utils/helpers.js / generateCaseRef) and the
settings singleton (settings.model.js).

Statuses and note texts are kept as the literal strings of the source; Mongo
Date values are modelled as natural-number instants (their value never drives
control flow in the embedded code); HTTP responses become the `CmdResult`
sum below (200 → ok, 400 → badRequest, 403 → forbidden, 404 → notFound,
409 → conflict, the code's ConflictingState channel).
-/

/-- One entry of `statusHistory` (statusHistorySchema): a free-form status
string, a timestamp and an optional note. The schema puts no enum on the
`status` field, so it is a plain `String` here as well. -/
structure StatusEntry where
  status : String
  timestamp : Nat
  notes : Option String
deriving DecidableEq

/-- One entry of `notes` (noteSchema). -/
structure CaseNote where
  content : String
  author : String
  visibility : String
  createdAt : Nat
deriving DecidableEq

/-- `invitation.userResponse` sub-document: every field may be set to
`undefined` by the controllers, hence all fields are optional. -/
structure UserResponse where
  status : Option String
  proposedDate : Option Nat
  proposedTime : Option String
  reason : Option String
deriving DecidableEq

/-- `invitation` sub-document of a complaint. -/
structure Invitation where
  date : Option Nat
  time : Option String
  location : Option String
  userResponse : Option UserResponse
deriving DecidableEq

/-- The Case entity (complaintSchema). Fields the embedded controllers never
touch (cloudinary URLs and the like) keep their schema names; optional
schema fields are `Option`s. -/
structure Complaint where
  caseRef : String
  title : String
  contactNumber : Option String
  complainant : Option String
  type : String
  category : Option String
  desiredAction : Option String
  vendorDetails : Option String
  status : String
  narrative : Option String
  evidenceUrls : List String
  statusHistory : List StatusEntry
  invitation : Option Invitation
  notes : List CaseNote
  resolutionStatus : Option String
  isPublic : Bool
  views : Nat
  likes : Nat
  dislikes : Nat
  likedBy : List String
  dislikedBy : List String
  viewedBy : List String
deriving DecidableEq

/-- The outcome of one controller call, keyed by the HTTP status the source
returns: `ok` carries the saved complaint (the 200/201 body), `conflict` is
the 409 ConflictingState channel. -/
inductive CmdResult where
  | ok (c : Complaint)
  | badRequest (msg : String)
  | forbidden (msg : String)
  | notFound (msg : String)
  | conflict (msg : String)
deriving DecidableEq

/-- The saved complaint of a successful call, `none` on any error. -/
def CmdResult.complaint : CmdResult → Option Complaint
  | .ok c => some c
  | _ => none

/-- The `status` field of the saved complaint of a successful call. -/
def CmdResult.statusOf (r : CmdResult) : Option String :=
  r.complaint.map Complaint.status

/-- The status of the LAST `statusHistory` entry of the saved complaint. -/
def CmdResult.lastHistoryStatus (r : CmdResult) : Option (Option String) :=
  r.complaint.map fun c => (c.statusHistory.getLast?).map StatusEntry.status

/-- Whether the saved complaint still carries an `invitation` sub-record. -/
def CmdResult.invitationPresent (r : CmdResult) : Option Bool :=
  r.complaint.map fun c => c.invitation.isSome

/-- `admin.controller.js / vetCase` (lines 270–341): admin review of a
pending case. The source checks the REQUESTED status against the allowed
list and requires a note for rejection, but reads the complaint's current
`status` nowhere: it assigns the new status unconditionally and pushes no
`statusHistory` entry. A note supplied on rejection is appended to `notes`
with visibility `User Visible`. -/
def vetCase (status : String) (noteContent : Option String) (adminId : String)
    (now : Nat) (complaint : Complaint) : CmdResult :=
  if ¬ (status = "Approved for Scheduling" ∨ status = "Rejected") then
    .badRequest "Invalid status provided."
  else if status = "Rejected" ∧ noteContent = none then
    .badRequest "Vetting notes are required when rejecting a case."
  else
    let c1 := { complaint with status := status }
    let c2 :=
      match noteContent with
      | some content =>
          if status = "Rejected" then
            { c1 with notes := c1.notes ++
                [⟨content, adminId, "User Visible", now⟩] }
          else c1
      | none => c1
    .ok c2

/-- `admin.controller.js / scheduleCase` (lines 348–401): requires date,
time and location, rejects with 409 unless the current status is
`Pending Review` or `Approved for Scheduling`, then sets the status and
REPLACES the whole `invitation` object. No `statusHistory` push. -/
def scheduleCase (date : Option Nat) (time location : Option String)
    (complaint : Complaint) : CmdResult :=
  match date, time, location with
  | some d, some t, some l =>
      if ¬ (complaint.status = "Pending Review" ∨
            complaint.status = "Approved for Scheduling") then
        .conflict "Cannot schedule case."
      else
        .ok { complaint with
                status := "Approved for Scheduling",
                invitation := some ⟨some d, some t, some l, none⟩ }
  | _, _, _ => .badRequest "Date, time, and location are required for scheduling."

/-- JS template interpolation of a possibly-undefined value. -/
def jsShow : Option String → String
  | some s => s
  | none => "undefined"

/-- `admin.controller.js / respondToUserProposal` (lines 408–455): the admin
answers an owner counter-proposal. 404 unless an `invitation` with a
`userResponse` is present. `Accepted` copies the proposed date/time into the
invitation, clears `userResponse`, sets the status to `Ongoing` and pushes a
history entry whose status string is `Scheduled`; `Rejected` merely clears
`userResponse` and pushes a history entry `Approved for Scheduling`. -/
def respondToUserProposal (adminResponse : String) (message : Option String)
    (now : Nat) (complaint : Complaint) : CmdResult :=
  if ¬ (adminResponse = "Accepted" ∨ adminResponse = "Rejected") then
    .badRequest "A valid response is required."
  else
    match complaint.invitation with
    | none => .notFound "No user proposal found for this complaint."
    | some inv =>
        match inv.userResponse with
        | none => .notFound "No user proposal found for this complaint."
        | some ur =>
            if adminResponse = "Accepted" then
              .ok { complaint with
                      invitation := some { inv with
                        date := ur.proposedDate,
                        time := ur.proposedTime,
                        userResponse := none },
                      status := "Ongoing",
                      statusHistory := complaint.statusHistory ++
                        [⟨"Scheduled", now,
                          some "Admin accepted user\'s proposed time."⟩] }
            else
              .ok { complaint with
                      invitation := some { inv with userResponse := none },
                      statusHistory := complaint.statusHistory ++
                        [⟨"Approved for Scheduling", now,
                          some ("Admin rejected user\'s proposed time. Reason: "
                            ++ jsShow message)⟩] }

/-- `admin.controller.js / revertCaseToPending` (lines 518–553): 409 unless
the current status is `Approved for Scheduling` or `Rejected`; then the
status becomes `Pending Review` and a matching history entry is pushed.
The source next runs `if (complaint.status === 'Approved for Scheduling')
complaint.invitation = undefined` — but `complaint.status` was ALREADY
reassigned to `Pending Review` above, so the embedded guard reads the new
status, exactly as the mutated JS object does. -/
def revertCaseToPending (adminFullName : String) (now : Nat)
    (complaint : Complaint) : CmdResult :=
  if ¬ (complaint.status = "Approved for Scheduling" ∨
        complaint.status = "Rejected") then
    .conflict "Cannot revert case."
  else
    let c1 := { complaint with
                  status := "Pending Review",
                  statusHistory := complaint.statusHistory ++
                    [⟨"Pending Review", now,
                      some ("Case reverted by admin " ++ adminFullName ++ ".")⟩] }
    let c2 :=
      if c1.status = "Approved for Scheduling" then
        { c1 with invitation := none }
      else c1
    .ok c2

/-- `admin.controller.js / closeCase` (lines 559–590): requires a valid
resolution status, then closes the case. The source reads the complaint's
current `status` nowhere — there is no state guard — and pushes no
`statusHistory` entry. -/
def closeCase (resolutionStatus : Option String) (complaint : Complaint) :
    CmdResult :=
  match resolutionStatus with
  | none => .badRequest "A valid resolution status is required."
  | some r =>
      if ¬ (r = "Resolved Successfully" ∨ r = "Unresolved" ∨
            r = "Cancelled by User") then
        .badRequest "A valid resolution status is required."
      else
        .ok { complaint with status := "Closed", resolutionStatus := some r }

/-- JS truthiness of a possibly-missing string: `undefined` and `""` are
falsy, everything else truthy. -/
def falsy : Option String → Bool
  | none => true
  | some s => s = ""

/-- `x || old` for a required string field of the schema. -/
def jsOrStr (x : Option String) (old : String) : String :=
  match x with
  | some s => if s = "" then old else s
  | none => old

/-- `x || old` for an optional string field of the schema. -/
def jsOrOpt (x old : Option String) : Option String :=
  match x with
  | some s => if s = "" then old else some s
  | none => old

/-- `invitation.controller.js / respondToInvitation` (index.ts part, lines
147–198): the owner answers a scheduling invitation. The source validates
the response value, requires a proposed date and time on rejection, 404s
without an invitation and 403s for non-owners — but it never inspects an
EXISTING `invitation.userResponse`: the new response object simply replaces
whatever was there, and it is written on acceptance too (with the proposal
fields `undefined`). Acceptance additionally moves the status to `Ongoing`
with a matching history entry. -/
def respondToInvitation (response : String) (proposedDate : Option Nat)
    (proposedTime reason : Option String) (userId : String) (now : Nat)
    (complaint : Complaint) : CmdResult :=
  if ¬ (response = "Accepted" ∨ response = "Rejected") then
    .badRequest "A valid response is required."
  else if response = "Rejected" ∧ (proposedDate = none ∨ falsy proposedTime) then
    .badRequest "A proposed date and time are required when rejecting."
  else
    match complaint.invitation with
    | none => .notFound "Complaint or invitation not found."
    | some inv =>
        if complaint.complainant ≠ some userId then
          .forbidden "You are not authorized to respond to this invitation."
        else
          let ur : UserResponse :=
            ⟨some response,
             if response = "Rejected" then proposedDate else none,
             if response = "Rejected" then proposedTime else none,
             if response = "Rejected" then reason else none⟩
          let inv' := { inv with userResponse := some ur }
          let c1 := { complaint with invitation := some inv' }
          if response = "Accepted" then
            .ok { c1 with
                    status := "Ongoing",
                    statusHistory := c1.statusHistory ++
                      [⟨"Ongoing", now,
                        some "Complainant accepted the scheduled meeting."⟩] }
          else
            .ok c1

/-- `complaint.controller.js / updateComplaint` (lines 283–333): owner edit.
403 unless the caller owns the case and its status is `Draft`,
`Pending Review` or `Rejected`; each supplied field overwrites via the
JS `new || old` pattern; and if the case WAS `Rejected` the edit resubmits
it: status `Pending Review` plus a history entry carrying the resubmission
note. The `notes` array is untouched. -/
def updateComplaint (title category desiredAction vendorDetails narrative
    contactNumber : Option String) (userId : String) (now : Nat)
    (complaint : Complaint) : CmdResult :=
  if complaint.complainant ≠ some userId then
    .forbidden "You are not authorized to edit this complaint."
  else if ¬ (complaint.status = "Draft" ∨ complaint.status = "Pending Review" ∨
             complaint.status = "Rejected") then
    .forbidden "Cannot edit a complaint with this status."
  else
    let wasRejected := complaint.status = "Rejected"
    let c1 := { complaint with
                  title := jsOrStr title complaint.title,
                  category := jsOrOpt category complaint.category,
                  desiredAction := jsOrOpt desiredAction complaint.desiredAction,
                  vendorDetails := jsOrOpt vendorDetails complaint.vendorDetails,
                  narrative := jsOrOpt narrative complaint.narrative,
                  contactNumber := jsOrOpt contactNumber complaint.contactNumber }
    if wasRejected then
      .ok { c1 with
              status := "Pending Review",
              statusHistory := c1.statusHistory ++
                [⟨"Pending Review", now,
                  some "Complaint was edited and resubmitted by the user after rejection."⟩] }
    else
      .ok c1

/-- The Counter collection (counter.model.js): one row per `_id`, holding a
`seq` integer. Modelled as an association list. -/
abbrev CounterStore := List (String × Nat)

/-- The `seq` stored under an `_id`, `none` when no row exists. -/
def CounterStore.getSeq : CounterStore → String → Option Nat
  | [], _ => none
  | p :: t, id => if p.1 = id then some p.2 else CounterStore.getSeq t id

/-- Overwrite the `seq` stored under an existing `_id`. -/
def CounterStore.setSeq : CounterStore → String → Nat → CounterStore
  | [], _, _ => []
  | p :: t, id, v =>
      if p.1 = id then (p.1, v) :: t else p :: CounterStore.setSeq t id v

/-- The single atomic `findOneAndUpdate({_id}, {$inc: {seq: 1}},
{new: true, upsert: true})` step of `generateCaseRef`: one indivisible
increment-and-read against the store, creating the row with `seq = 1` on
first use. Returns the post-increment `seq` and the new store. -/
def CounterStore.incSeq (s : CounterStore) (id : String) : Nat × CounterStore :=
  match s.getSeq id with
  | some k => (k + 1, s.setSeq id (k + 1))
  | none => (1, s ++ [(id, 1)])

/-- `String(n).padStart(4, '0')`. -/
def padStart4 (n : Nat) : String :=
  let s := toString n
  if 4 ≤ s.length then s
  else String.mk (List.replicate (4 - s.length) '0') ++ s

/-- The counter row id for a year: `caseRef_${currentYear}`. -/
def counterId (year : Nat) : String := "caseRef_" ++ toString year

/-- `utils/helpers.js / generateCaseRef` (47–70 of the notification-util
concatenation): atomically bumps the year's counter and formats
`C-{year}-{seq padded to 4 digits}`. -/
def generateCaseRef (year : Nat) (s : CounterStore) : String × CounterStore :=
  let r := s.incSeq (counterId year)
  ("C-" ++ toString year ++ "-" ++ padStart4 r.1, r.2)

/-- The settings singleton (settings.model.js appSettingsSchema), restricted
to the flags the embedded controllers read. Schema defaults are all
`false`. -/
structure AppSettings where
  autoVerifyUsers : Bool
  autoAcceptComplaints : Bool
  allowPublicView : Bool
deriving DecidableEq

/-- `AppSettings.create({})`: a fresh settings document carries the schema
defaults. -/
def AppSettings.fresh : AppSettings := ⟨false, false, false⟩

/-- The submitting user as the creation flow sees it. -/
structure UserCtx where
  id : String
  fullName : String
  verificationStatus : String
deriving DecidableEq

/-- Outcome of case creation: success carries the saved complaint and the
counter store the reference generator left behind. -/
inductive CreateResult where
  | created (c : Complaint) (counters : CounterStore)
  | badRequest (msg : String)
  | forbidden (msg : String)
deriving DecidableEq

/-- The saved complaint of a successful creation. -/
def CreateResult.complaint : CreateResult → Option Complaint
  | .created c _ => some c
  | _ => none

/-- `complaint.controller.js / createCase` (lines 26–107): creation of a
`type = 'Case'` complaint. In source order: `isDraft` from the requested
status; find-or-create the settings singleton; 403 unless the user is
verified; field validation (all of title, category, desiredAction,
narrative for a submission, title alone for a draft); one `generateCaseRef`
call; then the document is built with status `Draft` for a draft and
otherwise `Approved for Scheduling` when `settings.autoAcceptComplaints`
is set, else `Pending Review` — while the single initial `statusHistory`
entry is `Draft` or `Pending Review`, never `Approved for Scheduling`.
The retry loop only re-runs on a store-level duplicate-key error, which the
pure store below never raises. -/
def createCase (title category desiredAction vendorDetails narrative
    status contactNumber : Option String) (evidenceUrls : List String)
    (user : UserCtx) (settingsStore : Option AppSettings) (year : Nat)
    (counters : CounterStore) (now : Nat) : CreateResult :=
  let isDraft := status = some "Draft"
  let settings := settingsStore.getD AppSettings.fresh
  if user.verificationStatus ≠ "Verified" then
    .forbidden "Your identity must be verified before submitting a complaint."
  else if ¬ isDraft ∧ (falsy title ∨ falsy category ∨ falsy desiredAction ∨
                       falsy narrative) then
    .badRequest "Title, category, desired action, and narrative are required fields."
  else if isDraft ∧ falsy title then
    .badRequest "A title is required to save a draft."
  else
    let r := generateCaseRef year counters
    .created
      { caseRef := r.1
        title := title.getD ""
        contactNumber := contactNumber
        complainant := some user.id
        type := "Case"
        category := category
        desiredAction := desiredAction
        vendorDetails := vendorDetails
        status := if isDraft then "Draft"
                  else if settings.autoAcceptComplaints then
                    "Approved for Scheduling"
                  else "Pending Review"
        narrative := narrative
        evidenceUrls := evidenceUrls
        statusHistory := [⟨if isDraft then "Draft" else "Pending Review", now, none⟩]
        invitation := none
        notes := []
        resolutionStatus := none
        isPublic := false
        views := 0
        likes := 0
        dislikes := 0
        likedBy := []
        dislikedBy := []
        viewedBy := [] }
      r.2

/-- `public.controller.js / handleSentiment` (part_005 lines 142–193): the
public like/dislike toggle. Validates the action, 404 unless the complaint
is public, mutates the `likedBy`/`dislikedBy` arrays (push only when the
identifier is absent; removal by filtering out every occurrence), then
RECOMPUTES `likes`/`dislikes` as the array lengths. -/
def handleSentiment (action identifier : String) (complaint : Complaint) :
    CmdResult :=
  if ¬ (action = "LIKE" ∨ action = "UNLIKE" ∨ action = "DISLIKE" ∨
        action = "UNDISLIKE") then
    .badRequest "Invalid action specified."
  else if complaint.isPublic = false then
    .notFound "Public complaint not found."
  else
    let hasLiked := identifier ∈ complaint.likedBy
    let hasDisliked := identifier ∈ complaint.dislikedBy
    let c1 :=
      if action = "LIKE" then
        { complaint with
            likedBy := if hasLiked then complaint.likedBy
                       else complaint.likedBy ++ [identifier],
            dislikedBy := if hasDisliked then
                            complaint.dislikedBy.filter (· ≠ identifier)
                          else complaint.dislikedBy }
      else if action = "UNLIKE" then
        { complaint with
            likedBy := if hasLiked then complaint.likedBy.filter (· ≠ identifier)
                       else complaint.likedBy }
      else if action = "DISLIKE" then
        { complaint with
            dislikedBy := if hasDisliked then complaint.dislikedBy
                          else complaint.dislikedBy ++ [identifier],
            likedBy := if hasLiked then complaint.likedBy.filter (· ≠ identifier)
                       else complaint.likedBy }
      else
        { complaint with
            dislikedBy := if hasDisliked then
                            complaint.dislikedBy.filter (· ≠ identifier)
                          else complaint.dislikedBy }
    .ok { c1 with likes := c1.likedBy.length, dislikes := c1.dislikedBy.length }

/-- Whether a call was refused on the ConflictingState (HTTP 409) channel. -/
def CmdResult.isConflict : CmdResult → Bool
  | .conflict _ => true
  | _ => false

/-- The `invitation.userResponse` of the saved complaint of a successful
call. -/
def CmdResult.userResponseOf (r : CmdResult) : Option (Option UserResponse) :=
  r.complaint.map fun c => c.invitation.bind Invitation.userResponse

/-- The `likes` counter of the saved complaint of a successful call. -/
def CmdResult.likesOf (r : CmdResult) : Option Nat :=
  r.complaint.map Complaint.likes

/-- The `dislikes` counter of the saved complaint of a successful call. -/
def CmdResult.dislikesOf (r : CmdResult) : Option Nat :=
  r.complaint.map Complaint.dislikes

/-- The `likedBy` array of the saved complaint of a successful call. -/
def CmdResult.likedByOf (r : CmdResult) : Option (List String) :=
  r.complaint.map Complaint.likedBy

/-- The `dislikedBy` array of the saved complaint of a successful call. -/
def CmdResult.dislikedByOf (r : CmdResult) : Option (List String) :=
  r.complaint.map Complaint.dislikedBy

/-- The case after a successful sentiment call (unchanged on an error
response, which never arises under the hypotheses used below). -/
def afterSentiment (action identifier : String) (c : Complaint) : Complaint :=
  match handleSentiment action identifier c with
  | .ok c1 => c1
  | _ => c

/-- The acting identifier sits in at most one of `likedBy`/`dislikedBy`. -/
def sentimentExclusive (identifier : String) (c : Complaint) : Bool :=
  !(c.likedBy.contains identifier && c.dislikedBy.contains identifier)

/-- The `status` of the saved complaint of a successful creation. -/
def CreateResult.statusOf (r : CreateResult) : Option String :=
  r.complaint.map Complaint.status

/-- The `caseRef` of the saved complaint of a successful creation. -/
def CreateResult.caseRefOf (r : CreateResult) : Option String :=
  r.complaint.map Complaint.caseRef

/-- The statuses of the `statusHistory` entries of a successful creation. -/
def CreateResult.historyStatusesOf (r : CreateResult) : Option (List String) :=
  r.complaint.map fun c => c.statusHistory.map StatusEntry.status

/-- The audit-trail invariant of the spec's data model, as a decidable
check: `statusHistory` is non-empty (a last entry exists) and that last
entry's `status` equals the current `status`. -/
def histInvB (c : Complaint) : Bool :=
  match c.statusHistory.getLast? with
  | some e => e.status == c.status
  | none => false

/-- `histInvB` read through a command result: trivially true on an error
response (the record is then unchanged), checked on the saved complaint. -/
def resultHistInvB (r : CmdResult) : Bool := (r.complaint.map histInvB).getD true

/-- One reference request: the atomic increment-and-read of the current
year's counter row that `generateCaseRef` performs, yielding the sequence
number handed to the caller. -/
def nextSeq (year : Nat) (s : CounterStore) : Nat × CounterStore :=
  s.incSeq (counterId year)

/-- The sequence numbers handed out, in store order, of `n` reference
requests against a shared counter store. Each request is ONE atomic store
step (a single `findOneAndUpdate` with `$inc` and `upsert`), so an
arbitrary concurrent interleaving of `n` callers — in one process or
several sharing the store — is exactly some serialisation of these `n`
steps, which this function folds out. -/
def runNextSeqs (year : Nat) : Nat → CounterStore → List Nat
  | 0, _ => []
  | n + 1, s =>
      let r := nextSeq year s
      r.1 :: runNextSeqs year n r.2

/-- A representative case fresh out of review intake: status
`Pending Review` with the matching single history entry. -/
def pendingCase : Complaint :=
  { caseRef := "C-2025-0001"
    title := "Vendor dispute"
    contactNumber := none
    complainant := some "user-1"
    type := "Case"
    category := some "Vendor & Service Issues"
    desiredAction := some "Mediation/Internal Settlement"
    vendorDetails := none
    status := "Pending Review"
    narrative := some "narrative"
    evidenceUrls := []
    statusHistory := [⟨"Pending Review", 0, none⟩]
    invitation := none
    notes := []
    resolutionStatus := none
    isPublic := false
    views := 0
    likes := 0
    dislikes := 0
    likedBy := []
    dislikedBy := []
    viewedBy := [] }

/-- A case still in `Draft`. -/
def draftCase : Complaint :=
  { pendingCase with status := "Draft", statusHistory := [⟨"Draft", 0, none⟩] }

/-- A rejected case carrying the admin's rejection note. -/
def rejectedCase : Complaint :=
  { pendingCase with
      status := "Rejected"
      statusHistory := [⟨"Pending Review", 0, none⟩, ⟨"Rejected", 1, none⟩]
      notes := [⟨"incomplete", "admin-1", "User Visible", 1⟩] }

/-- A scheduled invitation attached to a case under negotiation. -/
def sampleInvitation : Invitation :=
  ⟨some 100, some "10:00", some "Town Hall", none⟩

/-- A case approved for scheduling with a live invitation. -/
def scheduledCase : Complaint :=
  { pendingCase with
      status := "Approved for Scheduling"
      statusHistory := [⟨"Pending Review", 0, none⟩]
      invitation := some sampleInvitation }

/-- An outstanding owner counter-proposal. -/
def sampleProposal : UserResponse :=
  ⟨some "Rejected", some 200, some "14:00", some "unavailable"⟩

/-- A case whose owner has countered the invitation and is awaiting the
admin resolution. -/
def counteredCase : Complaint :=
  { scheduledCase with
      invitation := some { sampleInvitation with userResponse := some sampleProposal } }

/-- A public case with one like and one dislike from distinct identifiers. -/
def publicCase : Complaint :=
  { pendingCase with
      isPublic := true
      likes := 1
      dislikes := 1
      likedBy := ["id-a"]
      dislikedBy := ["id-b"] }

/-- A closed case. -/
def closedCase : Complaint :=
  { pendingCase with
      status := "Closed"
      statusHistory := [⟨"Pending Review", 0, none⟩, ⟨"Closed", 2, none⟩]
      resolutionStatus := some "Unresolved" }

/-- C6: with a pending owner proposal, the admin acceptance adopts the
proposed date and time into the invitation, clears `userResponse`, sets the
status to `Ongoing` (and pushes the `Scheduled` history entry the source
writes). -/
theorem respondToUserProposal_accepted_adopts_proposal
    (c : Complaint) (inv : Invitation) (ur : UserResponse)
    (msg : Option String) (now : Nat)
    (h1 : c.invitation = some inv) (h2 : inv.userResponse = some ur) :
    respondToUserProposal "Accepted" msg now c =
      CmdResult.ok { c with
        status := "Ongoing",
        invitation := some { inv with
          date := ur.proposedDate, time := ur.proposedTime, userResponse := none },
        statusHistory := c.statusHistory ++
          [⟨"Scheduled", now, some "Admin accepted user\'s proposed time."⟩] } := by
  simp [respondToUserProposal, h1, h2]

/-- Witness for C6 at a concrete countered case. -/
theorem respondToUserProposal_accepted_adopts_proposal_witness :
    counteredCase.invitation =
      some { sampleInvitation with userResponse := some sampleProposal } ∧
    ({ sampleInvitation with userResponse := some sampleProposal } :
      Invitation).userResponse = some sampleProposal ∧
    respondToUserProposal "Accepted" none 5 counteredCase =
      CmdResult.ok { counteredCase with
        status := "Ongoing",
        invitation := some { sampleInvitation with
          date := sampleProposal.proposedDate,
          time := sampleProposal.proposedTime,
          userResponse := none },
        statusHistory := counteredCase.statusHistory ++
          [⟨"Scheduled", 5, some "Admin accepted user\'s proposed time."⟩] } :=
  ⟨rfl, rfl,
    respondToUserProposal_accepted_adopts_proposal counteredCase
      { sampleInvitation with userResponse := some sampleProposal }
      sampleProposal none 5 rfl rfl⟩

/-- C8: an owner edit of a `Rejected` case resubmits it: status
`Pending Review`, a history entry with the resubmission note, and the
`notes` array (holding the rejection note) untouched. -/
theorem updateComplaint_resubmits_after_rejection
    (title category desiredAction vendorDetails narrative contactNumber :
      Option String) (userId : String) (now : Nat) (c : Complaint)
    (howner : c.complainant = some userId) (hstat : c.status = "Rejected") :
    (updateComplaint title category desiredAction vendorDetails narrative
        contactNumber userId now c).statusOf = some "Pending Review" ∧
    ((updateComplaint title category desiredAction vendorDetails narrative
        contactNumber userId now c).complaint.map Complaint.statusHistory) =
      some (c.statusHistory ++
        [⟨"Pending Review", now,
          some "Complaint was edited and resubmitted by the user after rejection."⟩]) ∧
    ((updateComplaint title category desiredAction vendorDetails narrative
        contactNumber userId now c).complaint.map Complaint.notes) = some c.notes := by
  simp [updateComplaint, howner, hstat, CmdResult.statusOf, CmdResult.complaint]

/-- Witness for C8 at a concrete rejected case. -/
theorem updateComplaint_resubmits_after_rejection_witness :
    rejectedCase.complainant = some "user-1" ∧ rejectedCase.status = "Rejected" ∧
    ((updateComplaint (some "New title") none none none (some "More detail") none
        "user-1" 3 rejectedCase).statusOf = some "Pending Review" ∧
     ((updateComplaint (some "New title") none none none (some "More detail") none
        "user-1" 3 rejectedCase).complaint.map Complaint.statusHistory) =
       some (rejectedCase.statusHistory ++
         [⟨"Pending Review", 3,
           some "Complaint was edited and resubmitted by the user after rejection."⟩]) ∧
     ((updateComplaint (some "New title") none none none (some "More detail") none
        "user-1" 3 rejectedCase).complaint.map Complaint.notes) =
       some rejectedCase.notes) :=
  ⟨rfl, rfl,
    updateComplaint_resubmits_after_rejection (some "New title") none none none
      (some "More detail") none "user-1" 3 rejectedCase rfl rfl⟩

/-- C4 evaluation: reverting a scheduled case does reach `Pending Review`
but the invitation is STILL PRESENT, because the source clears it under
`if (complaint.status === 'Approved for Scheduling')` AFTER having already
set `complaint.status = 'Pending Review'` — a dead branch, contradicting
its own comment that it clears the invitation details. -/
theorem revertCaseToPending_leaves_invitation_present :
    (revertCaseToPending "Admin One" 9 scheduledCase).statusOf =
      some "Pending Review" ∧
    (revertCaseToPending "Admin One" 9 scheduledCase).invitationPresent =
      some true := by
  decide

/-- C3 counterexample: `closeCase` applied to a `Draft` case succeeds with
status `Closed` — no ConflictingState error, refuting the claim that Close
fails from Draft. -/
theorem closeCase_from_draft_succeeds :
    (closeCase (some "Unresolved") draftCase).statusOf = some "Closed" ∧
    (closeCase (some "Unresolved") draftCase).isConflict = false := by
  decide

/-- C3 amended: only the schedule and revert commands enforce their
from-state lists (with a 409 ConflictingState); `closeCase` succeeds from
ANY current status (Draft and Closed included) and `vetCase` likewise
performs no current-status check, so vetting can even move a case out of
`Closed`. -/
theorem lifecycle_guard_enforcement :
    (∀ (d : Nat) (t l : String) (c : Complaint),
        ¬ (c.status = "Pending Review" ∨ c.status = "Approved for Scheduling") →
        (scheduleCase (some d) (some t) (some l) c).isConflict = true) ∧
    (∀ (name : String) (now : Nat) (c : Complaint),
        ¬ (c.status = "Approved for Scheduling" ∨ c.status = "Rejected") →
        (revertCaseToPending name now c).isConflict = true) ∧
    (∀ (r : String) (c : Complaint),
        r = "Resolved Successfully" ∨ r = "Unresolved" ∨ r = "Cancelled by User" →
        (closeCase (some r) c).statusOf = some "Closed") ∧
    (∀ (note : Option String) (adminId : String) (now : Nat) (c : Complaint),
        (vetCase "Approved for Scheduling" note adminId now c).statusOf =
          some "Approved for Scheduling") := by
  refine ⟨?_, ?_, ?_, ?_⟩
  · intro d t l c h
    simp [scheduleCase, h, CmdResult.isConflict]
  · intro name now c h
    simp [revertCaseToPending, h, CmdResult.isConflict]
  · intro r c h
    rcases h with h | h | h <;>
      simp [closeCase, h, CmdResult.statusOf, CmdResult.complaint]
  · intro note adminId now c
    cases note <;>
      simp [vetCase, CmdResult.statusOf, CmdResult.complaint]

/-- Witness for the C3 amendment: a closed case cannot be reverted (409),
yet vetting it succeeds and moves it out of `Closed`. -/
theorem lifecycle_guard_enforcement_witness :
    (¬ (closedCase.status = "Approved for Scheduling" ∨
        closedCase.status = "Rejected") ∧
      (revertCaseToPending "Admin" 3 closedCase).isConflict = true) ∧
    (vetCase "Approved for Scheduling" none "admin-1" 4 closedCase).statusOf =
      some "Approved for Scheduling" :=
  ⟨⟨by decide, lifecycle_guard_enforcement.2.1 "Admin" 3 closedCase (by decide)⟩,
    lifecycle_guard_enforcement.2.2.2 none "admin-1" 4 closedCase⟩

/-- C5 counterexample: with an owner proposal already outstanding
(`invitation.userResponse` present), a second owner response succeeds —
there is no ConflictingState error — and simply overwrites the outstanding
proposal. -/
theorem second_owner_response_succeeds :
    (respondToInvitation "Rejected" (some 300) (some "16:00") (some "travel")
        "user-1" 6 counteredCase).isConflict = false ∧
    (respondToInvitation "Rejected" (some 300) (some "16:00") (some "travel")
        "user-1" 6 counteredCase).userResponseOf =
      some (some ⟨some "Rejected", some 300, some "16:00", some "travel"⟩) := by
  decide

/-- C5 amended: a second `RespondToInvitation` issued before the admin
resolves the first succeeds and OVERWRITES `invitation.userResponse` with
the new proposal; the source never checks for an existing `userResponse`
(and also writes one on acceptance), so no ConflictingState error exists on
this path. -/
theorem second_owner_response_overwrites
    (c : Complaint) (inv : Invitation) (ur0 : UserResponse)
    (d : Nat) (t : String) (reason : Option String) (uid : String) (now : Nat)
    (hinv : c.invitation = some inv) (_hur : inv.userResponse = some ur0)
    (howner : c.complainant = some uid) (ht : t ≠ "") :
    respondToInvitation "Rejected" (some d) (some t) reason uid now c =
      CmdResult.ok { c with
        invitation := some { inv with
          userResponse := some ⟨some "Rejected", some d, some t, reason⟩ } } := by
  simp [respondToInvitation, hinv, howner, falsy, ht]

/-- Witness for the C5 amendment at a concrete countered case. -/
theorem second_owner_response_overwrites_witness :
    counteredCase.invitation =
      some { sampleInvitation with userResponse := some sampleProposal } ∧
    ({ sampleInvitation with userResponse := some sampleProposal } :
      Invitation).userResponse = some sampleProposal ∧
    counteredCase.complainant = some "user-1" ∧ ("16:00" : String) ≠ "" ∧
    respondToInvitation "Rejected" (some 300) (some "16:00") (some "travel")
        "user-1" 6 counteredCase =
      CmdResult.ok { counteredCase with
        invitation := some { sampleInvitation with
          userResponse := some
            ⟨some "Rejected", some 300, some "16:00", some "travel"⟩ } } :=
  ⟨rfl, rfl, rfl, by decide,
    second_owner_response_overwrites counteredCase
      { sampleInvitation with userResponse := some sampleProposal }
      sampleProposal 300 "16:00" (some "travel") "user-1" 6 rfl rfl rfl
      (by decide)⟩

/-- C7: a non-draft `type = 'Case'` submission with every required field
present, on a fresh system (no settings document yet, so the schema
defaults apply, and no counter row for the year), is created with status
`Pending Review` and reference `C-{year}-0001`. -/
theorem createCase_fresh_submission
    (title category desiredAction vendorDetails narrative status0
      contactNumber : Option String) (evidenceUrls : List String)
    (user : UserCtx) (year : Nat) (counters : CounterStore) (now : Nat)
    (hver : user.verificationStatus = "Verified")
    (ht : falsy title = false) (hc : falsy category = false)
    (hd : falsy desiredAction = false) (hn : falsy narrative = false)
    (hnd : status0 ≠ some "Draft")
    (hctr : counters.getSeq (counterId year) = none) :
    (createCase title category desiredAction vendorDetails narrative status0
        contactNumber evidenceUrls user none year counters now).statusOf =
      some "Pending Review" ∧
    (createCase title category desiredAction vendorDetails narrative status0
        contactNumber evidenceUrls user none year counters now).caseRefOf =
      some ("C-" ++ toString year ++ "-" ++ "0001") := by
  have hpad : padStart4 1 = "0001" := rfl
  simp [createCase, hver, ht, hc, hd, hn, hnd, generateCaseRef,
    CounterStore.incSeq, hctr, AppSettings.fresh, hpad,
    CreateResult.statusOf, CreateResult.caseRefOf, CreateResult.complaint]

/-- Witness for C7 in the year 2025 on an empty store. -/
theorem createCase_fresh_submission_witness :
    ({ id := "user-1", fullName := "User One",
       verificationStatus := "Verified" } : UserCtx).verificationStatus =
      "Verified" ∧
    falsy (some "t") = false ∧ falsy (some "Financial Fraud/Scam") = false ∧
    falsy (some "Mediation/Internal Settlement") = false ∧
    falsy (some "story") = false ∧ (none : Option String) ≠ some "Draft" ∧
    CounterStore.getSeq [] (counterId 2025) = none ∧
    ((createCase (some "t") (some "Financial Fraud/Scam")
        (some "Mediation/Internal Settlement") none (some "story") none none
        [] ⟨"user-1", "User One", "Verified"⟩ none 2025 [] 0).statusOf =
      some "Pending Review" ∧
     (createCase (some "t") (some "Financial Fraud/Scam")
        (some "Mediation/Internal Settlement") none (some "story") none none
        [] ⟨"user-1", "User One", "Verified"⟩ none 2025 [] 0).caseRefOf =
      some ("C-" ++ toString 2025 ++ "-" ++ "0001")) :=
  ⟨rfl, rfl, rfl, rfl, rfl, by decide, rfl,
    createCase_fresh_submission (some "t") (some "Financial Fraud/Scam")
      (some "Mediation/Internal Settlement") none (some "story") none none
      [] ⟨"user-1", "User One", "Verified"⟩ 2025 [] 0 rfl rfl rfl rfl rfl
      (by decide) rfl⟩

/-- C10: with the global `autoAcceptComplaints` setting on, a non-draft
case is created with status `Approved for Scheduling` while its single
initial `statusHistory` entry still records `Pending Review`: the creation
outcome depends on the settings flag (and diverges from the audit trail). -/
theorem createCase_autoAccept_divergence
    (title category desiredAction vendorDetails narrative status0
      contactNumber : Option String) (evidenceUrls : List String)
    (user : UserCtx) (settings : AppSettings) (year : Nat)
    (counters : CounterStore) (now : Nat)
    (hver : user.verificationStatus = "Verified")
    (ht : falsy title = false) (hc : falsy category = false)
    (hd : falsy desiredAction = false) (hn : falsy narrative = false)
    (hnd : status0 ≠ some "Draft")
    (hauto : settings.autoAcceptComplaints = true) :
    (createCase title category desiredAction vendorDetails narrative status0
        contactNumber evidenceUrls user (some settings) year counters
        now).statusOf = some "Approved for Scheduling" ∧
    (createCase title category desiredAction vendorDetails narrative status0
        contactNumber evidenceUrls user (some settings) year counters
        now).historyStatusesOf = some ["Pending Review"] := by
  simp [createCase, hver, ht, hc, hd, hn, hnd, hauto,
    CreateResult.statusOf, CreateResult.historyStatusesOf,
    CreateResult.complaint]

/-- Witness for C10 with the auto-accept flag set. -/
theorem createCase_autoAccept_divergence_witness :
    ({ id := "user-1", fullName := "User One",
       verificationStatus := "Verified" } : UserCtx).verificationStatus =
      "Verified" ∧
    falsy (some "t") = false ∧ falsy (some "Financial Fraud/Scam") = false ∧
    falsy (some "Mediation/Internal Settlement") = false ∧
    falsy (some "story") = false ∧ (none : Option String) ≠ some "Draft" ∧
    ({ autoVerifyUsers := false, autoAcceptComplaints := true,
       allowPublicView := false } : AppSettings).autoAcceptComplaints = true ∧
    ((createCase (some "t") (some "Financial Fraud/Scam")
        (some "Mediation/Internal Settlement") none (some "story") none none
        [] ⟨"user-1", "User One", "Verified"⟩ (some ⟨false, true, false⟩)
        2025 [] 0).statusOf = some "Approved for Scheduling" ∧
     (createCase (some "t") (some "Financial Fraud/Scam")
        (some "Mediation/Internal Settlement") none (some "story") none none
        [] ⟨"user-1", "User One", "Verified"⟩ (some ⟨false, true, false⟩)
        2025 [] 0).historyStatusesOf = some ["Pending Review"]) :=
  ⟨rfl, rfl, rfl, rfl, rfl, by decide, rfl,
    createCase_autoAccept_divergence (some "t") (some "Financial Fraud/Scam")
      (some "Mediation/Internal Settlement") none (some "story") none none
      [] ⟨"user-1", "User One", "Verified"⟩ ⟨false, true, false⟩ 2025 [] 0
      rfl rfl rfl rfl rfl (by decide) rfl⟩

/-- C1 counterexample: closing a case appends nothing to `statusHistory`,
so after a successful `closeCase` the last history entry still carries the
old status, not `Closed`. -/
theorem closeCase_breaks_history_invariant :
    (closeCase (some "Unresolved") pendingCase).statusOf = some "Closed" ∧
    (closeCase (some "Unresolved") pendingCase).lastHistoryStatus =
      some (some "Pending Review") ∧
    (closeCase (some "Unresolved") pendingCase).lastHistoryStatus ≠
      some ((closeCase (some "Unresolved") pendingCase).statusOf) := by
  decide

/-- C1 amended: the audit-trail invariant (`statusHistory` non-empty, last
entry's status = current status) is established by creation as a draft or
with `autoAcceptComplaints` unset, and preserved by the owner edit command
(including the Rejected → Pending Review resubmission), by the admin revert
and by the owner invitation response — but NOT by vetting, scheduling,
admin proposal responses or close, which either append no history entry or
append one (`Scheduled`) differing from the new status. -/
theorem statusHistory_invariant_partial :
    (∀ (title category desiredAction vendorDetails narrative status0
         contactNumber : Option String) (evidenceUrls : List String)
       (user : UserCtx) (sStore : Option AppSettings) (year : Nat)
       (counters : CounterStore) (now : Nat) (c : Complaint)
       (cnts : CounterStore),
        (status0 = some "Draft" ∨
          (sStore.getD AppSettings.fresh).autoAcceptComplaints = false) →
        createCase title category desiredAction vendorDetails narrative
          status0 contactNumber evidenceUrls user sStore year counters now =
          CreateResult.created c cnts →
        histInvB c = true) ∧
    (∀ (title category desiredAction vendorDetails narrative contactNumber :
         Option String) (userId : String) (now : Nat) (c : Complaint),
        histInvB c = true →
        resultHistInvB (updateComplaint title category desiredAction
          vendorDetails narrative contactNumber userId now c) = true) ∧
    (∀ (name : String) (now : Nat) (c : Complaint),
        resultHistInvB (revertCaseToPending name now c) = true) ∧
    (∀ (response : String) (proposedDate : Option Nat)
       (proposedTime reason : Option String) (userId : String) (now : Nat)
       (c : Complaint),
        histInvB c = true →
        resultHistInvB (respondToInvitation response proposedDate proposedTime
          reason userId now c) = true) := by
  refine ⟨?_, ?_, ?_, ?_⟩
  · intro title category desiredAction vendorDetails narrative status0
      contactNumber evidenceUrls user sStore year counters now c cnts hset hEq
    simp only [createCase] at hEq
    split at hEq
    · exact CreateResult.noConfusion hEq
    · split at hEq
      · exact CreateResult.noConfusion hEq
      · split at hEq
        · exact CreateResult.noConfusion hEq
        · cases hEq
          by_cases hD : status0 = some "Draft"
          · simp [histInvB, hD]
          · rcases hset with hset | hset
            · exact absurd hset hD
            · simp [histInvB, hD, hset]
  · intro title category desiredAction vendorDetails narrative contactNumber
      userId now c hInv
    unfold updateComplaint
    split
    · rfl
    · split
      · rfl
      · by_cases hR : c.status = "Rejected"
        · simp [hR, resultHistInvB, CmdResult.complaint, histInvB,
            List.getLast?_concat]
        · simp only [hR, if_false]
          exact hInv
  · intro name now c
    unfold revertCaseToPending
    split
    · rfl
    · simp [resultHistInvB, CmdResult.complaint, histInvB,
        List.getLast?_concat]
  · intro response proposedDate proposedTime reason userId now c hInv
    unfold respondToInvitation
    split
    · rfl
    · split
      · rfl
      · split
        · rfl
        · split
          · rfl
          · by_cases hA : response = "Accepted"
            · simp [hA, resultHistInvB, CmdResult.complaint, histInvB,
                List.getLast?_concat]
            · simp only [hA, if_false]
              exact hInv

/-- Witness for the C1 amendment: the invariant holds on a concrete
rejected case and is preserved by its owner resubmission. -/
theorem statusHistory_invariant_partial_witness :
    histInvB rejectedCase = true ∧
    resultHistInvB (updateComplaint none none none none none none "user-1" 3
      rejectedCase) = true :=
  ⟨by decide,
    statusHistory_invariant_partial.2.1 none none none none none none
      "user-1" 3 rejectedCase (by decide)⟩

/-- Helper: overwriting an existing counter row is visible to a lookup of
the same id. -/
theorem getSeq_setSeq_self (s : CounterStore) (id : String) (v k : Nat)
    (h : s.getSeq id = some k) : (s.setSeq id v).getSeq id = some v := by
  induction s with
  | nil => simp [CounterStore.getSeq] at h
  | cons p t ih =>
      by_cases hp : p.1 = id
      · simp [CounterStore.getSeq, CounterStore.setSeq, hp]
      · simp only [CounterStore.getSeq, CounterStore.setSeq, if_neg hp] at h ⊢
        exact ih h

/-- Helper: the lazily created counter row is visible to a lookup of the
same id. -/
theorem getSeq_append_new (s : CounterStore) (id : String)
    (h : s.getSeq id = none) : (s ++ [(id, 1)]).getSeq id = some 1 := by
  induction s with
  | nil => simp [CounterStore.getSeq]
  | cons p t ih =>
      by_cases hp : p.1 = id
      · simp [CounterStore.getSeq, hp] at h
      · rw [List.cons_append]
        simp only [CounterStore.getSeq, if_neg hp] at h ⊢
        exact ih h

/-- Helper: one atomic increment step returns the successor of the stored
count and leaves that successor in the store. -/
theorem incSeq_spec (s : CounterStore) (id : String) :
    (s.incSeq id).1 = (s.getSeq id).getD 0 + 1 ∧
    ((s.incSeq id).2).getSeq id = some ((s.getSeq id).getD 0 + 1) := by
  match h : s.getSeq id with
  | some k =>
      refine ⟨by simp [CounterStore.incSeq, h], ?_⟩
      simp only [CounterStore.incSeq, h]
      simpa using getSeq_setSeq_self s id (k + 1) k h
  | none =>
      refine ⟨by simp [CounterStore.incSeq, h], ?_⟩
      simp only [CounterStore.incSeq, h]
      simpa using getSeq_append_new s id h

/-- Helper: from a store whose counter for the year reads `k`, `n` further
atomic reference requests hand out exactly `k+1, …, k+n`. -/
theorem runNextSeqs_from (year : Nat) :
    ∀ (n k : Nat) (s : CounterStore),
      s.getSeq (counterId year) = some k →
      runNextSeqs year n s = List.range' (k + 1) n := by
  intro n
  induction n with
  | zero => intro k s _; rfl
  | succ m ih =>
      intro k s h
      have hspec := incSeq_spec s (counterId year)
      rw [h] at hspec
      simp only [Option.getD_some] at hspec
      simp only [runNextSeqs, nextSeq]
      rw [hspec.1, ih (k + 1) _ hspec.2, List.range'_succ]

/-- C2: on a store holding no counter row yet for the year, any concurrent
execution of `n` reference requests — each request being the single atomic
`$inc`-with-upsert step of `generateCaseRef`, so an arbitrary interleaving
across processes sharing the store is a serialisation of `n` such steps —
hands out exactly the contiguous, pairwise distinct sequence numbers
`1, …, n` for that year. -/
theorem caseRef_sequences_contiguous (year n : Nat) (s : CounterStore)
    (h : s.getSeq (counterId year) = none) :
    runNextSeqs year n s = List.range' 1 n ∧ (runNextSeqs year n s).Nodup := by
  have main : runNextSeqs year n s = List.range' 1 n := by
    cases n with
    | zero => rfl
    | succ m =>
        have hspec := incSeq_spec s (counterId year)
        rw [h] at hspec
        simp only [Option.getD_none] at hspec
        simp only [runNextSeqs, nextSeq]
        rw [hspec.1, runNextSeqs_from year m 1 _ hspec.2, List.range'_succ]
  exact ⟨main, main ▸ List.nodup_range' ..⟩

/-- Witness for C2: three requests of the year 2025 against an empty store
yield 1, 2, 3. -/
theorem caseRef_sequences_contiguous_witness :
    CounterStore.getSeq [] (counterId 2025) = none ∧
    (runNextSeqs 2025 3 [] = List.range' 1 3 ∧ (runNextSeqs 2025 3 []).Nodup) :=
  ⟨rfl, caseRef_sequences_contiguous 2025 3 [] rfl⟩

/-- C9: sentiment toggling on a public case. (1) a `LIKE` from an
identifier already in `likedBy` changes neither `likes` nor `likedBy`;
(2) `LIKE`, an idempotent second `LIKE`, then `UNLIKE` returns `likes` to
its original value; (3) after EVERY sentiment action the saved `likes` and
`dislikes` equal the sizes of the saved `likedBy`/`dislikedBy` arrays
(recomputed, never drifting); (4) the acting identifier ends up in at most
one of the two arrays; (5) the arrays stay duplicate-free, so their sizes
are genuine set cardinalities. -/
theorem handleSentiment_toggle_properties :
    (∀ (c : Complaint) (id : String),
        c.isPublic = true → id ∈ c.likedBy → c.likes = c.likedBy.length →
        (handleSentiment "LIKE" id c).likesOf = some c.likes ∧
        (handleSentiment "LIKE" id c).likedByOf = some c.likedBy) ∧
    (∀ (c : Complaint) (id : String),
        c.isPublic = true → id ∉ c.likedBy → c.likes = c.likedBy.length →
        (handleSentiment "UNLIKE" id
            (afterSentiment "LIKE" id (afterSentiment "LIKE" id c))).likesOf =
          some c.likes) ∧
    (∀ (action id : String) (c : Complaint),
        (handleSentiment action id c).likesOf =
          ((handleSentiment action id c).likedByOf).map List.length ∧
        (handleSentiment action id c).dislikesOf =
          ((handleSentiment action id c).dislikedByOf).map List.length) ∧
    (∀ (action id : String) (c : Complaint),
        (((handleSentiment action id c).complaint).map
          (sentimentExclusive id)).getD true = true) ∧
    (∀ (action id : String) (c : Complaint),
        c.likedBy.Nodup → c.dislikedBy.Nodup →
        (((handleSentiment action id c).complaint).map
          (fun c1 => decide c1.likedBy.Nodup && decide c1.dislikedBy.Nodup)).getD
          true = true) := by
  refine ⟨?_, ?_, ?_, ?_, ?_⟩
  · intro c id hpub hmem hlen
    simp [handleSentiment, hpub, hmem, CmdResult.likesOf, CmdResult.likedByOf,
      CmdResult.complaint, hlen]
  · intro c id hpub hmem hlen
    have hfilter : c.likedBy.filter (fun x => x ≠ id) = c.likedBy :=
      List.filter_eq_self.mpr fun a ha => by
        simp only [ne_eq, decide_eq_true_eq]
        rintro rfl
        exact hmem ha
    simp [handleSentiment, afterSentiment, hpub, hmem, CmdResult.likesOf,
      CmdResult.complaint, List.filter_append, hfilter, hlen]
    intro a ha h
    exact hmem (h ▸ ha)
  · intro action id c
    unfold handleSentiment
    split
    · exact ⟨rfl, rfl⟩
    · split
      · exact ⟨rfl, rfl⟩
      · exact ⟨rfl, rfl⟩
  · intro action id c
    unfold handleSentiment
    split
    · rfl
    · split
      · rfl
      · simp only [CmdResult.complaint, Option.map_some, Option.getD_some]
        split
        · by_cases hd : id ∈ c.dislikedBy <;>
            simp [sentimentExclusive, hd, List.mem_filter]
        · split
          · by_cases hl : id ∈ c.likedBy <;>
              simp [sentimentExclusive, hl, List.mem_filter]
          · split
            · by_cases hl : id ∈ c.likedBy <;>
                simp [sentimentExclusive, hl, List.mem_filter]
            · by_cases hd : id ∈ c.dislikedBy <;>
                simp [sentimentExclusive, hd, List.mem_filter]
  · intro action id c hndl hndd
    unfold handleSentiment
    split
    · rfl
    · split
      · rfl
      · simp only [CmdResult.complaint, Option.map_some, Option.getD_some]
        split
        · by_cases hl : id ∈ c.likedBy <;>
            by_cases hd : id ∈ c.dislikedBy <;>
            simp [hl, hd, hndl, hndd, List.Nodup.filter, List.nodup_append]
        · split
          · by_cases hl : id ∈ c.likedBy <;>
              simp [hl, hndl, hndd, List.Nodup.filter]
          · split
            · by_cases hl : id ∈ c.likedBy <;>
                by_cases hd : id ∈ c.dislikedBy <;>
                simp [hl, hd, hndl, hndd, List.Nodup.filter, List.nodup_append]
            · by_cases hd : id ∈ c.dislikedBy <;>
                simp [hd, hndl, hndd, List.Nodup.filter]

/-- Witness for C9 at a concrete public case whose identifier has already
liked it. -/
theorem handleSentiment_toggle_properties_witness :
    publicCase.isPublic = true ∧ "id-a" ∈ publicCase.likedBy ∧
    publicCase.likes = publicCase.likedBy.length ∧
    ((handleSentiment "LIKE" "id-a" publicCase).likesOf =
        some publicCase.likes ∧
     (handleSentiment "LIKE" "id-a" publicCase).likedByOf =
        some publicCase.likedBy) :=
  ⟨rfl, by decide, rfl,
    handleSentiment_toggle_properties.1 publicCase "id-a" rfl (by decide) rfl⟩
